import Mathlib

/-!
Shallow embedding of the asynchronous bridging core of the
`wpa_supplicant` D-Bus wrapper library (`wpa_supplicant/libcore.py`).

The embedding models:
* the local error taxonomy and the remote-error translation decorator
  `_catch_remote_errors` together with the `_REMOTE_EXCEPTIONS` table;
* the cross-thread deferred evaluator `_eval`;
* the per-`get(timeout)` wait state machine of `TimeoutDeferredQueue`
  (`_timed_out`, `_stop_timeout`, `put`);
* `BaseIface.register_signal_once` together with `RemoteSignal.cancel`;
* `Interface.scan` (option handling, signal registration ordering,
  timeout, result construction);
* `WpaSupplicant.get_interface` / `remove_interface` and the
  interfaces cache;
* the derived property conversions `BSS.get_channel` and
  `BSS.get_signal_quality`, and the `CurrentBSS` / `CurrentNetwork`
  accessors of `Interface`.

Remote-side behaviour (the D-Bus daemon and the txdbus transport) is an
external collaborator of the library; where a transition depends on it,
the model exposes it as an explicit environment parameter.
-/

namespace WpaSupplicantLib

/-! ## Error taxonomy (libcore.py lines 77-155)

Every exception class defined by the library derives from
`WpaSupplicantException`.  The base class itself is what the translator
raises for an unrecognized remote error name, so it doubles as the
generic catch-all kind (the spec calls this role `UnknownRemoteError`). -/

inductive WpaKind where
  | wpaSupplicantException   -- the base class, raised directly for unrecognized remote names
  | unknownError
  | methodTimeout
  | interfaceExists
  | invalidArgs
  | interfaceUnknown
  | notConnected
  | networkUnknown
  | reactorNotRunning
  deriving DecidableEq, Repr

/-- A raised library exception: its class together with the message it carries. -/
structure WpaError where
  kind : WpaKind
  message : String
  deriving DecidableEq, Repr

/-- A txdbus `error.RemoteError`: the namespaced wire-level error name and
the human-readable message. -/
structure RemoteError where
  errName : String
  message : String
  deriving DecidableEq, Repr

/-- The `_REMOTE_EXCEPTIONS` dict (libcore.py lines 148-155), as a lookup
from the wire-level error name to the mapped local exception class. -/
def remoteExceptions (errName : String) : Option WpaKind :=
  if errName = "fi.w1.wpa_supplicant1.UnknownError" then some .unknownError
  else if errName = "fi.w1.wpa_supplicant1.InvalidArgs" then some .invalidArgs
  else if errName = "fi.w1.wpa_supplicant1.InterfaceExists" then some .interfaceExists
  else if errName = "fi.w1.wpa_supplicant1.InterfaceUnknown" then some .interfaceUnknown
  else if errName = "fi.w1.wpa_supplicant1.NotConnected" then some .notConnected
  else if errName = "fi.w1.wpa_supplicant1.NetworkUnknown" then some .networkUnknown
  else none

/-- The `_catch_remote_errors` decorator (libcore.py lines 37-50) applied to
a wrapped call whose outcome is `call` (either a value or the
`RemoteError` the call raised).  Returns the translated outcome together
with the list of warnings logged. -/
def catch_remote_errors {α : Type} (call : Except RemoteError α) :
    Except WpaError α × List String :=
  match call with
  | .ok v => (.ok v, [])
  | .error ex =>
    match remoteExceptions ex.errName with
    | some kind => (.error ⟨kind, ex.message⟩, [])
    | none =>
        (.error ⟨.wpaSupplicantException, ex.message⟩,
         ["Unrecognized error: " ++ ex.errName])

/-! ## Derived BSS property conversions (libcore.py lines 689-699, 776-785) -/

/-- `BSS.get_channel` (libcore.py lines 689-699) as a function of the
`Frequency` property value.  Python 2 integer division floors; `Int.fdiv`
is floor division.  The code logs a warning before raising; the raised
exception class is the bare `WpaSupplicantException`. -/
def get_channel (freq : Int) : Except WpaError Int :=
  if freq = 2484 then .ok 14
  else if freq > 2472 ∨ freq < 2412 then
    .error ⟨.wpaSupplicantException, "Unexpected frequency in WiFi connection."⟩
  else .ok (1 + (freq - 2412).fdiv 5)

/-- `BSS.get_signal_quality` (libcore.py lines 776-785) as a function of the
`Signal` property value in dBm. -/
def get_signal_quality (dbm : Int) : Int :=
  if dbm ≤ -100 then 0
  else if dbm ≥ -50 then 100
  else 2 * (dbm + 100)

/-! ## Proxy objects

A proxy owns no remote state; the model keeps only the D-Bus object path
it wraps (the connection and reactor handles carry no information the
claims depend on). -/

structure BSSProxy where
  path : String
  deriving DecidableEq, Repr

structure NetworkProxy where
  path : String
  deriving DecidableEq, Repr

structure InterfaceProxy where
  path : String
  deriving DecidableEq, Repr

/-- `Interface.get_current_bss` (libcore.py lines 535-545) as a function of
the fetched `CurrentBSS` property value (`none` models Python `None`). -/
def get_current_bss (bss_path : Option String) : Option BSSProxy :=
  match bss_path with
  | none => none
  | some p => if p = "/" then none else some ⟨p⟩

/-- `Interface.get_current_network` (libcore.py lines 547-557) as a function
of the fetched `CurrentNetwork` property value. -/
def get_current_network (network_path : Option String) : Option NetworkProxy :=
  match network_path with
  | none => none
  | some p => if p = "/" then none else some ⟨p⟩

/-! ## `_eval`: the cross-thread deferred evaluator (libcore.py lines 53-71)

A twisted `Deferred` is modelled by whether it has already been called
and by its (eventual) outcome: `d.result` exists exactly when `d.called`
and always equals the outcome the deferred eventually relays.  `_eval`
builds an `inlineCallbacks` closure that reads `deferred.result` directly
when `deferred.called` is set and otherwise suspends (`yield deferred`)
until the engine completes it; the closure runs inline when the calling
thread is the reactor thread and is dispatched with
`threads.blockingCallFromThread` otherwise. -/

structure Deferred (ε α : Type) where
  called : Bool
  outcome : Except ε α

/-- Instrumented outcome of `_eval`: the relayed value or error, whether
the closure suspended on the deferred awaiting its engine-side
completion (the `yield deferred` branch), and whether the closure was
dispatched onto the reactor with `blockingCallFromThread` (the
foreign-thread branch of the thread-name test). -/
structure EvalResult (ε α : Type) where
  value : Except ε α
  awaitedCompletion : Bool
  dispatchedToReactor : Bool

/-- The inner `closure()` of `_eval`: `if deferred.called: result =
deferred.result else: result = yield deferred`.  Second component records
whether the `yield` branch was taken. -/
def evalClosure {ε α : Type} (deferred : Deferred ε α) : Except ε α × Bool :=
  if deferred.called then (deferred.outcome, false) else (deferred.outcome, true)

/-- `_eval(deferred, reactor)`; `onReactorThread` is the test
`threading.currentThread().getName() == reactor.thread_name`. -/
def _eval {ε α : Type} (deferred : Deferred ε α) (onReactorThread : Bool) :
    EvalResult ε α :=
  let c := evalClosure deferred
  { value := c.1, awaitedCompletion := c.2, dispatchedToReactor := !onReactorThread }

/-! ## `TimeoutDeferredQueue`: the per-get wait state machine
(libcore.py lines 161-196)

One `get(timeout)` call on an empty queue appends a fresh deferred to
`self.waiting` and schedules `_timed_out` after the timeout.  The wait is
described by the deferred's outcome (`none` while unfired; `some (.ok v)`
once `put` delivered `v`; `some (.error ())` once `_timed_out` errbacked
with `MethodTimeout`) and by whether the deferred is still in
`self.waiting`. -/

structure WaitState (α : Type) where
  result : Option (Except Unit α)
  inWaiting : Bool

/-- The state right after `get(timeout)` found the queue empty: a fresh
deferred in `self.waiting`, the timeout scheduled, nothing fired yet. -/
def freshWait (α : Type) : WaitState α := { result := none, inWaiting := true }

/-- The terminal state `_timed_out` produces: the deferred removed from
`self.waiting` and errbacked with `MethodTimeout`. -/
def timedOutWait (α : Type) : WaitState α :=
  { result := some (.error ()), inWaiting := false }

/-- Events visible to one pending wait: a value being `put` on the queue,
and the scheduled timeout call firing. -/
inductive QEvent (α : Type) where
  | put (v : α)
  | timerFire

/-- One step of the wait.  `put` (inherited `DeferredQueue.put`) pops the
waiting deferred and calls it back with the value; the deferred's
callback chain then runs `_stop_timeout`, cancelling the timeout.  A
`put` when this wait is no longer in `self.waiting` buffers the value in
`self.pending` and leaves the wait unchanged.  `_timed_out` acts only
when the deferred has not been called AND is still in `self.waiting`
(the two guards at lines 171-172 that tolerate a cancel/fire race);
otherwise it is a no-op. -/
def stepWait {α : Type} (s : WaitState α) : QEvent α → WaitState α
  | .put v =>
      if s.inWaiting then { result := some (.ok v), inWaiting := false } else s
  | .timerFire =>
      if s.result.isNone ∧ s.inWaiting then timedOutWait α else s

/-- Run a sequence of events against a wait state. -/
def runWait {α : Type} (s : WaitState α) : List (QEvent α) → WaitState α
  | [] => s
  | e :: rest => runWait (stepWait s e) rest

/-- `evs` contains no `put` event. -/
def noPut {α : Type} (evs : List (QEvent α)) : Prop :=
  ∀ v : α, QEvent.put v ∉ evs

/-! ## `register_signal_once` (libcore.py lines 250-279) and
`RemoteSignal.cancel` (lines 213-214)

`register_signal_once` creates a `TimeoutDeferredQueue`, then a
`RemoteSignal` whose callback `signal_callback(result)` does
`q.put(result)` and then `signal.cancel()`.  The bus collaborator
(txdbus `notifyOnSignal` / `cancelSignalNotification`, spec section 6)
keeps a set of active subscriptions: an active subscription invokes the
callback on each signal occurrence and no delivery is observed after
cancellation (spec section 5); cancelling removes the subscription, and
cancelling one already removed changes nothing.  With a single
registration the state is the queue's buffered contents plus the
subscription's active flag. -/

structure OnceState (α : Type) where
  queue : List α
  subscribed : Bool

/-- The state `register_signal_once` returns in: an empty queue and a
live subscription. -/
def register_signal_once (α : Type) : OnceState α :=
  { queue := [], subscribed := true }

/-- The signal firing with payload `result`.  If the subscription is
active the callback runs: `q.put(result)` appends to the queue and
`signal.cancel()` removes the subscription.  A fire after cancellation
delivers nothing. -/
def fireSignal {α : Type} (s : OnceState α) (result : α) : OnceState α :=
  if s.subscribed then { queue := s.queue ++ [result], subscribed := false } else s

/-- An explicit `RemoteSignal.cancel()` call: removes the bus-side
subscription; the queue is untouched. -/
def cancelSignal {α : Type} (s : OnceState α) : OnceState α :=
  { s with subscribed := false }

/-- Events against one `register_signal_once` registration. -/
inductive OnceEvent (α : Type) where
  | fire (result : α)
  | cancel

def stepOnce {α : Type} (s : OnceState α) : OnceEvent α → OnceState α
  | .fire r => fireSignal s r
  | .cancel => cancelSignal s

def runOnce {α : Type} (s : OnceState α) : List (OnceEvent α) → OnceState α
  | [] => s
  | e :: rest => runOnce (stepOnce s e) rest

/-! ## `Interface.scan` (libcore.py lines 457-481)

The environment supplies what the daemon decides: the outcome of
`deferred_queue.get(timeout=10)` (the `ScanDone` boolean payload, or the
`MethodTimeout` the queue raises), and the `BSSs` property value
`get_all_bss()` fetches.  The model also emits the list of remote-facing
actions the call performs, in order, so registration/trigger ordering is
part of the embedded behaviour. -/

inductive ScanAction where
  | registerOnce (signal_name : String)
  | callRemote (method : String) (scanType : String)
  | queueGet (timeout : Nat)
  deriving DecidableEq, Repr

structure ScanEnv where
  scanDone : Except WpaError Bool
  bssPaths : List String
  deriving Repr

/-- `Interface.scan(type, block)`.  `scan_options = {'Type': type}` is
carried as the `scanType` field of the trigger action.  Returns the
action trace and the call's outcome: `some` a list of `BSS` proxies when
blocking, `none` when not. -/
def Interface.scan (env : ScanEnv) (type : String) (block : Bool) :
    List ScanAction × Except WpaError (Option (List BSSProxy)) :=
  if block then
    let actions : List ScanAction :=
      [.registerOnce "ScanDone", .callRemote "Scan" type, .queueGet 10]
    match env.scanDone with
    | .error e => (actions, .error e)
    | .ok success =>
        if success then
          (actions, .ok (some (env.bssPaths.map fun path => ⟨path⟩)))
        else
          (actions, .error ⟨.unknownError, "ScanDone signal received without success"⟩)
  else
    ([.callRemote "Scan" type], .ok none)

/-! ## `WpaSupplicant.get_interface` / `remove_interface` and the
interfaces cache (libcore.py lines 338-340, 351-368, 382-391)

`self._interfaces_cache` is a dict from the object path the remote
`GetInterface` call resolved to, to the `Interface` proxy constructed for
it; the model is an association list with first-match lookup, insertion
prepending (only reached when the key is absent). -/

abbrev InterfacesCache := List (String × InterfaceProxy)

def cacheGet (cache : InterfacesCache) (path : String) : Option InterfaceProxy :=
  (cache.find? fun entry => entry.1 = path).map Prod.snd

/-- `get_interface`, given the object path `interface_path` that the
remote `GetInterface` call returned for the requested name.  Cache hit
returns the cached proxy unchanged; miss constructs a proxy, stores it
and returns it. -/
def get_interface (cache : InterfacesCache) (interface_path : String) :
    InterfaceProxy × InterfacesCache :=
  match cacheGet cache interface_path with
  | some interface => (interface, cache)
  | none => (⟨interface_path⟩, (interface_path, ⟨interface_path⟩) :: cache)

/-- `remove_interface` only issues the remote `RemoveInterface` call
(line 391); it never touches `self._interfaces_cache`.  The function
returns the cache after the call. -/
def remove_interface (cache : InterfacesCache) (_interface_path : String) :
    InterfacesCache :=
  cache

/-! ## Helper lemmas -/

/-- A wait whose deferred has left `self.waiting` is untouched by both the
queue's `put` and the scheduled `_timed_out` call. -/
theorem stepWait_settled {α : Type} (s : WaitState α) (e : QEvent α)
    (h : s.inWaiting = false) : stepWait s e = s := by
  cases e with
  | put v => simp [stepWait, h]
  | timerFire => simp [stepWait, h]

theorem runWait_settled {α : Type} (s : WaitState α) (evs : List (QEvent α))
    (h : s.inWaiting = false) : runWait s evs = s := by
  induction evs with
  | nil => rfl
  | cons e rest ih => rw [runWait, stepWait_settled s e h]; exact ih

theorem stepWait_fresh_timerFire {α : Type} :
    stepWait (freshWait α) QEvent.timerFire = timedOutWait α := by
  simp [stepWait, freshWait]

theorem stepWait_fresh_put {α : Type} (v : α) :
    stepWait (freshWait α) (QEvent.put v) =
      { result := some (Except.ok v), inWaiting := false } := by
  simp [stepWait, freshWait]

/-- With no `put` among the events, a fresh wait is still fresh or has
already timed out. -/
theorem runWait_noPut {α : Type} (evs : List (QEvent α)) (h : noPut evs) :
    runWait (freshWait α) evs = freshWait α ∨
      runWait (freshWait α) evs = timedOutWait α := by
  cases evs with
  | nil => exact Or.inl rfl
  | cons e rest =>
    cases e with
    | put v => exact absurd (List.mem_cons_self _ _) (h v)
    | timerFire =>
      right
      rw [runWait, stepWait_fresh_timerFire]
      exact runWait_settled _ _ rfl

theorem runWait_append {α : Type} (s : WaitState α) (a b : List (QEvent α)) :
    runWait s (a ++ b) = runWait (runWait s a) b := by
  induction a generalizing s with
  | nil => rfl
  | cons e rest ih => rw [List.cons_append, runWait, runWait, ih]

/-- A cancelled `register_signal_once` subscription is inert: firing the
signal delivers nothing and cancelling again changes nothing. -/
theorem stepOnce_unsubscribed {α : Type} (s : OnceState α) (e : OnceEvent α)
    (h : s.subscribed = false) : stepOnce s e = s := by
  cases e with
  | fire r => simp [stepOnce, fireSignal, h]
  | cancel => cases s with | mk q sub => cases sub <;> simp_all [stepOnce, cancelSignal]

theorem runOnce_unsubscribed {α : Type} (s : OnceState α)
    (evs : List (OnceEvent α)) (h : s.subscribed = false) : runOnce s evs = s := by
  induction evs with
  | nil => rfl
  | cons e rest ih => rw [runOnce, stepOnce_unsubscribed s e h]; exact ih

theorem cacheGet_cons (k : String) (v : InterfaceProxy) (cache : InterfacesCache)
    (other : String) :
    cacheGet ((k, v) :: cache) other =
      if k = other then some v else cacheGet cache other := by
  by_cases h : k = other <;> simp [cacheGet, List.find?, h]

/-! ## Claim theorems -/

/-- Claim C1: for a `TimeoutDeferredQueue.get` wait with timeout `T > 0`:
if no value has been `put` when the scheduled `_timed_out` call fires,
the wait errbacks with `MethodTimeout` (the `.error ()` terminal state);
if a value was `put` before the timer fires, the wait holds that value
and a later timer fire is a no-op; and a settled wait never changes
again under any further events, so the FULFILLED and TIMED_OUT outcomes
are mutually exclusive and each wait resolves exactly once. -/
theorem C1_timed_queue_get_timeout :
    (∀ (α : Type) (evs : List (QEvent α)), noPut evs →
      runWait (freshWait α) (evs ++ [QEvent.timerFire]) = timedOutWait α) ∧
    (∀ (α : Type) (v : α) (evs : List (QEvent α)),
      (runWait (stepWait (freshWait α) (QEvent.put v)) evs).result =
        some (Except.ok v)) ∧
    (∀ (α : Type) (v : α),
      stepWait (stepWait (freshWait α) (QEvent.put v)) QEvent.timerFire =
        stepWait (freshWait α) (QEvent.put v)) ∧
    (∀ (α : Type) (s : WaitState α) (r : Except Unit α) (evs : List (QEvent α)),
      s.result = some r → s.inWaiting = false → runWait s evs = s) := by
  refine ⟨?_, ?_, ?_, ?_⟩
  · intro α evs h
    rw [runWait_append]
    rcases runWait_noPut evs h with h1 | h1 <;> rw [h1]
    · rw [runWait, stepWait_fresh_timerFire]; rfl
    · rw [runWait, stepWait_settled _ _ rfl]; rfl
  · intro α v evs
    rw [stepWait_fresh_put, runWait_settled _ _ rfl]
  · intro α v
    rw [stepWait_fresh_put, stepWait_settled _ _ rfl]
  · intro α s r evs _ h2
    exact runWait_settled s evs h2

/-- Witness for C1 at concrete inputs: two timer fires with no put time
out; a put before the fire is preserved; a timed-out wait ignores a
later put. -/
theorem C1_timed_queue_get_timeout_witness :
    runWait (freshWait Nat) ([QEvent.timerFire] ++ [QEvent.timerFire]) =
      timedOutWait Nat ∧
    (runWait (stepWait (freshWait Nat) (QEvent.put 7)) [QEvent.timerFire]).result =
      some (Except.ok 7) ∧
    runWait (timedOutWait Nat) [QEvent.put 7] = timedOutWait Nat :=
  ⟨C1_timed_queue_get_timeout.1 Nat [QEvent.timerFire] (by intro v h; simp at h),
   C1_timed_queue_get_timeout.2.1 Nat 7 [QEvent.timerFire],
   C1_timed_queue_get_timeout.2.2.2 Nat (timedOutWait Nat) (Except.error ())
     [QEvent.put 7] rfl rfl⟩

/-- Claim C2: `_eval` on an already-completed deferred relays the
recorded value or re-raises the recorded error, identically from the
reactor thread and from a foreign thread, and reads the recorded result
directly instead of suspending on the deferred for an engine-side
completion (`awaitedCompletion = false`). -/
theorem C2_eval_completed :
    ∀ (ε α : Type) (d : Deferred ε α), d.called = true → ∀ b1 b2 : Bool,
      (_eval d b1).value = d.outcome ∧
      (_eval d b1).value = (_eval d b2).value ∧
      (_eval d b1).awaitedCompletion = false := by
  intro ε α d h b1 b2
  simp [_eval, evalClosure, h]

/-- Witness for C2: a deferred completed with value 3 evaluates to 3 on
both threads without awaiting. -/
theorem C2_eval_completed_witness :
    (_eval (⟨true, Except.ok 3⟩ : Deferred Unit Nat) true).value = Except.ok 3 ∧
    (_eval (⟨true, Except.ok 3⟩ : Deferred Unit Nat) true).value =
      (_eval (⟨true, Except.ok 3⟩ : Deferred Unit Nat) false).value ∧
    (_eval (⟨true, Except.ok 3⟩ : Deferred Unit Nat) true).awaitedCompletion = false :=
  C2_eval_completed Unit Nat ⟨true, Except.ok 3⟩ rfl true false

/-- Claim C3: `_catch_remote_errors` maps a caught `RemoteError` whose
name is in `_REMOTE_EXCEPTIONS` to the mapped local kind carrying the
original message; an unrecognized name logs a warning naming it and
raises the generic base kind; and in every case the caller receives a
local-taxonomy error carrying the original message, never the
transport-level error. -/
theorem C3_catch_remote_errors_translation :
    ∀ (α : Type) (ex : RemoteError),
      (∀ kind, remoteExceptions ex.errName = some kind →
        catch_remote_errors (α := α) (Except.error ex) =
          (Except.error ⟨kind, ex.message⟩, [])) ∧
      (remoteExceptions ex.errName = none →
        catch_remote_errors (α := α) (Except.error ex) =
          (Except.error ⟨WpaKind.wpaSupplicantException, ex.message⟩,
           ["Unrecognized error: " ++ ex.errName])) ∧
      (∃ kind, (catch_remote_errors (α := α) (Except.error ex)).1 =
        Except.error ⟨kind, ex.message⟩) := by
  intro α ex
  cases h : remoteExceptions ex.errName with
  | some kind =>
    refine ⟨?_, ?_, ?_⟩
    · intro k hk
      cases Option.some.inj hk
      simp [catch_remote_errors, h]
    · intro h0
      exact Option.noConfusion h0
    · exact ⟨kind, by simp [catch_remote_errors, h]⟩
  | none =>
    refine ⟨?_, ?_, ?_⟩
    · intro k hk
      exact Option.noConfusion hk
    · intro _
      simp [catch_remote_errors, h]
    · exact ⟨WpaKind.wpaSupplicantException, by simp [catch_remote_errors, h]⟩

/-- Witness for C3: a recognized name maps to its kind; an unrecognized
name maps to the generic base kind with a warning naming it. -/
theorem C3_catch_remote_errors_translation_witness :
    catch_remote_errors (α := Unit)
        (Except.error ⟨"fi.w1.wpa_supplicant1.NotConnected", "not connected"⟩) =
      (Except.error ⟨WpaKind.notConnected, "not connected"⟩, []) ∧
    catch_remote_errors (α := Unit)
        (Except.error ⟨"org.freedesktop.DBus.Error.Strange", "odd"⟩) =
      (Except.error ⟨WpaKind.wpaSupplicantException, "odd"⟩,
       ["Unrecognized error: " ++ "org.freedesktop.DBus.Error.Strange"]) :=
  ⟨(C3_catch_remote_errors_translation Unit
      ⟨"fi.w1.wpa_supplicant1.NotConnected", "not connected"⟩).1
      WpaKind.notConnected (by decide),
   (C3_catch_remote_errors_translation Unit
      ⟨"org.freedesktop.DBus.Error.Strange", "odd"⟩).2.1 (by decide)⟩

/-- Claim C4: firing the signal once on a `register_signal_once`
registration delivers exactly one value onto the queue and the callback
self-cancels the subscription; thereafter the state is inert under any
further fires and cancels (at most one delivery ever), and an explicit
cancellation after the self-cancellation is a no-op. -/
theorem C4_register_signal_once_at_most_once :
    ∀ (α : Type) (v : α),
      fireSignal (register_signal_once α) v =
        { queue := [v], subscribed := false } ∧
      (∀ evs : List (OnceEvent α),
        runOnce (fireSignal (register_signal_once α) v) evs =
          fireSignal (register_signal_once α) v) ∧
      cancelSignal (fireSignal (register_signal_once α) v) =
        fireSignal (register_signal_once α) v := by
  intro α v
  have h : fireSignal (register_signal_once α) v =
      { queue := [v], subscribed := false } := by
    simp [fireSignal, register_signal_once]
  refine ⟨h, ?_, ?_⟩
  · intro evs
    rw [h, runOnce_unsubscribed _ _ rfl]
  · rw [h]
    rfl

/-- Claim C5: blocking `Interface.scan` performs, in order, the
once-only `ScanDone` registration, then the remote `Scan` trigger with
the given options, then the queue wait with the fixed 10-second timeout;
and on a success payload it returns exactly one `BSS` proxy per path of
the interface's current `BSSs` property. -/
theorem C5_scan_blocking_protocol :
    ∀ (env : ScanEnv) (type : String),
      (Interface.scan env type true).1 =
        [ScanAction.registerOnce "ScanDone", ScanAction.callRemote "Scan" type,
         ScanAction.queueGet 10] ∧
      (env.scanDone = Except.ok true →
        (Interface.scan env type true).2 =
          Except.ok (some (env.bssPaths.map fun path => BSSProxy.mk path))) := by
  intro env type
  constructor
  · cases h : env.scanDone with
    | error e => simp [Interface.scan, h]
    | ok success => cases success <;> simp [Interface.scan, h]
  · intro h
    simp [Interface.scan, h]

/-- Witness for C5: a successful blocking scan over two known BSS paths
returns the two proxies. -/
theorem C5_scan_blocking_protocol_witness :
    (Interface.scan ⟨Except.ok true, ["/bss/0", "/bss/1"]⟩ "active" true).2 =
      Except.ok (some (["/bss/0", "/bss/1"].map fun path => BSSProxy.mk path)) :=
  (C5_scan_blocking_protocol ⟨Except.ok true, ["/bss/0", "/bss/1"]⟩ "active").2 rfl

/-- Claim C6: a blocking `Interface.scan` whose `ScanDone` payload is
`false` raises `UnknownError` and in particular does not return any
value (neither an empty list nor a silent `none`). -/
theorem C6_scan_failure_unknown_error :
    ∀ (env : ScanEnv) (type : String), env.scanDone = Except.ok false →
      (Interface.scan env type true).2 =
        Except.error ⟨WpaKind.unknownError, "ScanDone signal received without success"⟩ ∧
      ∀ paths : Option (List BSSProxy),
        (Interface.scan env type true).2 ≠ Except.ok paths := by
  intro env type h
  have h1 : (Interface.scan env type true).2 =
      Except.error ⟨WpaKind.unknownError, "ScanDone signal received without success"⟩ := by
    simp [Interface.scan, h]
  refine ⟨h1, ?_⟩
  intro paths hc
  rw [h1] at hc
  cases hc

/-- Witness for C6: the failure payload yields the `UnknownError`. -/
theorem C6_scan_failure_unknown_error_witness :
    (Interface.scan ⟨Except.ok false, []⟩ "active" true).2 =
      Except.error ⟨WpaKind.unknownError, "ScanDone signal received without success"⟩ ∧
    (Interface.scan ⟨Except.ok false, []⟩ "active" true).2 ≠
      Except.ok (some []) :=
  ⟨(C6_scan_failure_unknown_error ⟨Except.ok false, []⟩ "active" rfl).1,
   (C6_scan_failure_unknown_error ⟨Except.ok false, []⟩ "active" rfl).2 (some [])⟩

/-- Claim C7: the interfaces cache never evicts: a `get_interface`
resolving to a cached path returns the cached proxy and leaves the cache
unchanged; after any `get_interface` every pre-existing entry is still
present, the resolved path is cached, and a repeated `get_interface` on
the same path returns the same proxy and cache; `remove_interface`
leaves the cache unchanged. -/
theorem C7_interface_cache_no_eviction :
    ∀ (cache : InterfacesCache) (path : String),
      (∀ p, cacheGet cache path = some p → get_interface cache path = (p, cache)) ∧
      (∀ other q, cacheGet cache other = some q →
        cacheGet (get_interface cache path).2 other = some q) ∧
      cacheGet (get_interface cache path).2 path =
        some (get_interface cache path).1 ∧
      get_interface (get_interface cache path).2 path =
        ((get_interface cache path).1, (get_interface cache path).2) ∧
      remove_interface cache path = cache := by
  intro cache path
  cases h : cacheGet cache path with
  | some p =>
    have hg : get_interface cache path = (p, cache) := by
      simp [get_interface, h]
    refine ⟨?_, ?_, ?_, ?_, rfl⟩
    · intro p0 hp0
      cases Option.some.inj hp0
      exact hg
    · intro other q hq
      rw [hg]
      exact hq
    · rw [hg]
      exact h
    · rw [hg]
      simp [get_interface, h]
  | none =>
    have hg : get_interface cache path = (⟨path⟩, (path, ⟨path⟩) :: cache) := by
      simp [get_interface, h]
    have hc : cacheGet ((path, (⟨path⟩ : InterfaceProxy)) :: cache) path =
        some ⟨path⟩ := by
      rw [cacheGet_cons]
      simp
    refine ⟨?_, ?_, ?_, ?_, rfl⟩
    · intro p0 hp0
      exact Option.noConfusion hp0
    · intro other q hq
      rw [hg, cacheGet_cons]
      have hne : path ≠ other := by
        intro he
        rw [← he] at hq
        rw [h] at hq
        cases hq
      rw [if_neg hne]
      exact hq
    · rw [hg]
      exact hc
    · rw [hg]
      simp [get_interface, hc]

/-- Witness for C7: a cache hit returns the cached proxy unchanged, and
an insertion for a new path keeps the old entry. -/
theorem C7_interface_cache_no_eviction_witness :
    get_interface [("/if/1", InterfaceProxy.mk "/if/1")] "/if/1" =
      (InterfaceProxy.mk "/if/1", [("/if/1", InterfaceProxy.mk "/if/1")]) ∧
    cacheGet (get_interface [("/if/1", InterfaceProxy.mk "/if/1")] "/if/2").2 "/if/1" =
      some (InterfaceProxy.mk "/if/1") :=
  ⟨(C7_interface_cache_no_eviction [("/if/1", InterfaceProxy.mk "/if/1")] "/if/1").1
      (InterfaceProxy.mk "/if/1") (by decide),
   (C7_interface_cache_no_eviction [("/if/1", InterfaceProxy.mk "/if/1")] "/if/2").2.1
      "/if/1" (InterfaceProxy.mk "/if/1") (by decide)⟩

/-- Claim C8: `BSS.get_channel` returns channel 14 for frequency 2484,
raises the base `WpaSupplicantException` for frequencies outside
[2412, 2472] other than 2484, and otherwise returns
`1 + (freq - 2412) / 5` with truncating division; in particular
2462 gives 11, 2484 gives 14 and 2400 is a domain error. -/
theorem C8_get_channel_conversion :
    (∀ freq : Int, (freq < 2412 ∨ freq > 2472) → freq ≠ 2484 →
      get_channel freq =
        Except.error ⟨WpaKind.wpaSupplicantException,
          "Unexpected frequency in WiFi connection."⟩) ∧
    (∀ freq : Int, 2412 ≤ freq → freq ≤ 2472 →
      get_channel freq = Except.ok (1 + (freq - 2412).tdiv 5)) ∧
    get_channel 2484 = Except.ok 14 ∧
    get_channel 2462 = Except.ok 11 ∧
    get_channel 2400 =
      Except.error ⟨WpaKind.wpaSupplicantException,
        "Unexpected frequency in WiFi connection."⟩ := by
  refine ⟨?_, ?_, rfl, rfl, rfl⟩
  · intro freq h h14
    unfold get_channel
    rw [if_neg h14, if_pos h.symm]
  · intro freq h1 h2
    have hdiv : (freq - 2412).fdiv 5 = (freq - 2412).tdiv 5 := by
      rw [Int.fdiv_eq_ediv, Int.tdiv_eq_ediv] <;> omega
    unfold get_channel
    rw [if_neg (by omega : ¬freq = 2484),
        if_neg (by omega : ¬(freq > 2472 ∨ freq < 2412)), hdiv]

/-- Witness for C8: 2437 is channel 6 by the truncating formula and 5180
is out of the 2.4 GHz domain. -/
theorem C8_get_channel_conversion_witness :
    get_channel 2437 = Except.ok (1 + ((2437 : Int) - 2412).tdiv 5) ∧
    get_channel 5180 =
      Except.error ⟨WpaKind.wpaSupplicantException,
        "Unexpected frequency in WiFi connection."⟩ :=
  ⟨C8_get_channel_conversion.2.1 2437 (by decide) (by decide),
   C8_get_channel_conversion.1 5180 (Or.inr (by decide)) (by decide)⟩

/-- Claim C9: `BSS.get_signal_quality` clamps to 0 at or below -100 dBm,
clamps to 100 at or above -50 dBm, and is `2 * (dbm + 100)` in between;
in particular -60 gives 80, -100 gives 0 and -30 gives 100. -/
theorem C9_get_signal_quality_conversion :
    (∀ dbm : Int, dbm ≤ -100 → get_signal_quality dbm = 0) ∧
    (∀ dbm : Int, dbm ≥ -50 → get_signal_quality dbm = 100) ∧
    (∀ dbm : Int, -100 < dbm → dbm < -50 →
      get_signal_quality dbm = 2 * (dbm + 100)) ∧
    get_signal_quality (-60) = 80 ∧
    get_signal_quality (-100) = 0 ∧
    get_signal_quality (-30) = 100 := by
  refine ⟨?_, ?_, ?_, by decide, by decide, by decide⟩
  · intro dbm h
    unfold get_signal_quality
    rw [if_pos h]
  · intro dbm h
    unfold get_signal_quality
    rw [if_neg (by omega : ¬dbm ≤ -100), if_pos h]
  · intro dbm h1 h2
    unfold get_signal_quality
    rw [if_neg (by omega : ¬dbm ≤ -100), if_neg (by omega : ¬dbm ≥ -50)]

/-- Witness for C9 on one point of each branch. -/
theorem C9_get_signal_quality_conversion_witness :
    get_signal_quality (-110) = 0 ∧
    get_signal_quality (-40) = 100 ∧
    get_signal_quality (-75) = 2 * ((-75 : Int) + 100) :=
  ⟨C9_get_signal_quality_conversion.1 (-110) (by decide),
   C9_get_signal_quality_conversion.2.1 (-40) (by decide),
   C9_get_signal_quality_conversion.2.2.1 (-75) (by decide) (by decide)⟩

/-- Claim C10: `get_current_bss` and `get_current_network` return `None`
when the fetched property value is the path "/" or is absent, and
otherwise wrap the path in a `BSS` / `Network` proxy. -/
theorem C10_current_bss_network_none_on_slash :
    (get_current_bss (some "/") = none ∧ get_current_bss none = none ∧
      ∀ p : String, p ≠ "/" → get_current_bss (some p) = some (BSSProxy.mk p)) ∧
    (get_current_network (some "/") = none ∧ get_current_network none = none ∧
      ∀ p : String, p ≠ "/" → get_current_network (some p) = some (NetworkProxy.mk p)) := by
  refine ⟨⟨by decide, rfl, ?_⟩, ⟨by decide, rfl, ?_⟩⟩
  · intro p h
    simp [get_current_bss, h]
  · intro p h
    simp [get_current_network, h]

/-- Witness for C10: concrete non-root paths produce proxies. -/
theorem C10_current_bss_network_none_on_slash_witness :
    get_current_bss (some "/bss/7") = some (BSSProxy.mk "/bss/7") ∧
    get_current_network (some "/net/3") = some (NetworkProxy.mk "/net/3") :=
  ⟨C10_current_bss_network_none_on_slash.1.2.2 "/bss/7" (by decide),
   C10_current_bss_network_none_on_slash.2.2.2 "/net/3" (by decide)⟩

end WpaSupplicantLib
